import Mathlib

/-!
Verification development for the message ingestion-and-prioritization engine
(in-memory entity store, priority calculator, change notifier, email ingestion
route). The TypeScript sources are shallowly embedded: timestamps are plain `Int`
milliseconds since the Unix epoch (JS `Date.getTime()`), JS number arithmetic in the priority calculator
is embedded as exact rational arithmetic over `ℚ`, JS `Map`s are association
lists whose lookup returns the most recently set binding, and object aliasing
between a primary entity map and its index maps is modelled by storing entity
ids in the index maps. Fallible operations return `Option`.
-/

-- Source platforms for messages (src/lib/types.ts: type Source).
inductive Source where
  | email
  | slack
  | whatsapp
  | linkedin
deriving DecidableEq, Repr

/-- Metadata is the channel-specific key/value bag attached to a message.  The
fields are the union of the typed metadata shapes of the four ingestion request
types in src/lib/types.ts.  `mentions = none` models an absent (undefined) key,
`mentions = some l` models a present array `l` (a JS array is truthy even when
empty, which matters for the slack channel-noise penalty). -/
structure Metadata where
  importance : Option String := none
  isDirectMessage : Bool := false
  mentions : Option (List String) := none
  isForwarded : Bool := false
  isGroupChat : Bool := false
  connectionDegree : Option Int := none
  isInMail : Bool := false
deriving DecidableEq, Repr

/-- Empty metadata bag, the `{}` default used by the routes. -/
def Metadata.empty : Metadata := {}

/-- Lower-case a string character by character (JS `String.prototype.toLowerCase`
restricted to the simple one-to-one case mapping). -/
def jsToLower (s : String) : String := ⟨s.data.map Char.toLower⟩

/-- Check whether the first character list is an initial segment of the second. -/
def charsStartWith : List Char → List Char → Bool
  | [], _ => true
  | _ :: _, [] => false
  | a :: as, b :: bs => a == b && charsStartWith as bs

/-- Check whether the first character list occurs contiguously inside the second. -/
def charsContain (needle : List Char) : List Char → Bool
  | [] => charsStartWith needle []
  | b :: bs => charsStartWith needle (b :: bs) || charsContain needle bs

/-- JS `String.prototype.includes`: substring containment. -/
def strIncludes (s sub : String) : Bool := charsContain sub.data s.data

/-!
Priority calculator (src/lib/priority.ts).
-/

/-- Signal weights (src/lib/priority.ts: WEIGHTS). -/
def WEIGHTS_contactPriority : ℚ := 0.4
/-- Weight of the urgency-keyword signal. -/
def WEIGHTS_urgencyKeywords : ℚ := 0.2
/-- Weight of the recency signal. -/
def WEIGHTS_recency : ℚ := 0.2
/-- Weight of the response-expectation signal. -/
def WEIGHTS_responseExpectation : ℚ := 0.15
/-- Weight of the provider-boost signal. -/
def WEIGHTS_providerBoost : ℚ := 0.05

/-- Inactivity threshold in days (src/lib/priority.ts: INACTIVITY_THRESHOLD_DAYS). -/
def INACTIVITY_THRESHOLD_DAYS : ℚ := 7

/-- Urgency keywords and their boost values, in source order
(src/lib/priority.ts: URGENCY_KEYWORDS). -/
def URGENCY_KEYWORDS : List (String × Int) :=
  [("urgent", 20), ("asap", 20), ("emergency", 20), ("critical", 18),
   ("deadline", 15), ("immediately", 18),
   ("important", 10), ("priority", 8), ("needed", 7), ("soon", 6),
   ("time-sensitive", 10),
   ("when you can", 3), ("quick question", 5), ("no rush", 0)]

/-- Response expectation by platform, 0-15 (src/lib/priority.ts: RESPONSE_EXPECTATION). -/
def RESPONSE_EXPECTATION : Source → Int
  | .email => 5
  | .slack => 12
  | .whatsapp => 15
  | .linkedin => 3

/-- Urgency score from keywords in the content, 0-20
(src/lib/priority.ts: calculateUrgencyScore). -/
def calculateUrgencyScore (content : String) : Int :=
  let lowerContent := jsToLower content
  let maxScore := URGENCY_KEYWORDS.foldl
    (fun maxScore kv => if strIncludes lowerContent kv.1 then max maxScore kv.2 else maxScore) 0
  min maxScore 20

/-- Recency score from time since the last message, 0-20
(src/lib/priority.ts: calculateRecencyScore; `now` is the clock reading the
source obtains from `new Date()`). -/
def calculateRecencyScore (now lastMessageAt : Int) : Int :=
  let hoursSince : ℚ := ((now : ℚ) - (lastMessageAt : ℚ)) / (1000 * 60 * 60)
  if hoursSince < 1 then 20
  else if hoursSince < 4 then 15
  else if hoursSince < 24 then 10
  else if hoursSince < 72 then 5
  else 0

/-- Whether a conversation is inactive: no messages for 7 or more days
(src/lib/priority.ts: isInactive). -/
def isInactive (now lastMessageAt : Int) : Bool :=
  let daysSince : ℚ := ((now : ℚ) - (lastMessageAt : ℚ)) / (1000 * 60 * 60 * 24)
  daysSince ≥ INACTIVITY_THRESHOLD_DAYS

/-- Provider-specific boost, clamped to -10..+10
(src/lib/priority.ts: calculateProviderBoost).  The slack branch mirrors the
JS truthiness tests: `metadata.isDirectMessage` is the boolean itself,
`Array.isArray(metadata.mentions) && metadata.mentions.length > 0` is
`mentions = some l` with `l` nonempty, and `!metadata.mentions` is
`mentions = none` (a present array, even the empty one, is truthy in JS). -/
def calculateProviderBoost (source : Source) (metadata : Metadata) : Int :=
  let boost : Int :=
    match source with
    | .email =>
      (if metadata.importance = some "high" then 5 else 0)
        + (if metadata.importance = some "low" then -3 else 0)
    | .slack =>
      (if metadata.isDirectMessage then 10 else 0)
        + (if (match metadata.mentions with
               | some l => decide (l.length > 0)
               | none => false) then 5 else 0)
        + (if !metadata.isDirectMessage && metadata.mentions = none then -5 else 0)
    | .whatsapp =>
      (if metadata.isForwarded then -5 else 0)
        + (if metadata.isGroupChat then -10 else 0)
    | .linkedin =>
      (if metadata.connectionDegree = some 1 then 5 else 0)
        + (if metadata.isInMail then -5 else 0)
  max (-10) (min 10 boost)

/-- Scoring context (src/lib/types.ts: PriorityContext). -/
structure PriorityContext where
  source : Source
  content : String
  lastMessageAt : Int
  contactPriority : Int
  metadata : Metadata
deriving DecidableEq, Repr

/-- All priority signals (src/lib/priority.ts: calculatePrioritySignals). -/
structure PrioritySignals where
  contactPriority : Int
  urgencyKeywords : Int
  recency : Int
  responseExpectation : Int
  providerBoost : Int
deriving DecidableEq, Repr

/-- Compute the five signals (src/lib/priority.ts: calculatePrioritySignals). -/
def calculatePrioritySignals (now : Int) (context : PriorityContext) : PrioritySignals :=
  { contactPriority := context.contactPriority
    urgencyKeywords := calculateUrgencyScore context.content
    recency := calculateRecencyScore now context.lastMessageAt
    responseExpectation := RESPONSE_EXPECTATION context.source
    providerBoost := calculateProviderBoost context.source context.metadata }

/-- Final priority score, 0-100 (src/lib/priority.ts: calculatePriority).
JS number arithmetic is embedded as exact rational arithmetic; `Math.round`
is `round`, which is the floor of x + 1/2, the same half-up rounding JS
uses. -/
def calculatePriority (now : Int) (context : PriorityContext) : Int :=
  if isInactive now context.lastMessageAt then 0
  else
    let signals := calculatePrioritySignals now context
    let nContactPriority : ℚ := (signals.contactPriority : ℚ)
    let nUrgencyKeywords : ℚ := ((signals.urgencyKeywords : ℚ) / 20) * 100
    let nRecency : ℚ := ((signals.recency : ℚ) / 20) * 100
    let nResponseExpectation : ℚ := ((signals.responseExpectation : ℚ) / 15) * 100
    let nProviderBoost : ℚ := (((signals.providerBoost : ℚ) + 10) / 20) * 100
    let weightedSum : ℚ :=
      nContactPriority * WEIGHTS_contactPriority
        + nUrgencyKeywords * WEIGHTS_urgencyKeywords
        + nRecency * WEIGHTS_recency
        + nResponseExpectation * WEIGHTS_responseExpectation
        + nProviderBoost * WEIGHTS_providerBoost
    max 0 (min 100 (round weightedSum))

/-- Read-time lazy inactivity check
(src/lib/priority.ts: getPriorityWithInactivityCheck). -/
def getPriorityWithInactivityCheck (now : Int) (storedPriority : Int)
    (lastMessageAt : Int) : Int :=
  if isInactive now lastMessageAt then 0 else storedPriority

/-!
Entity store (src/lib/store.ts).  JS `Map`s are association lists; `Map.set`
appends a binding and `Map.get` returns the most recently set binding for a
key.  `uuidv4()` is modelled by a deterministic fresh-id counter.  In the
source, index maps hold references to the same objects as the primary maps;
here the index maps hold entity ids resolved through the primary maps, which
preserves that aliasing (ids are never mutated).
-/

/-- Lookup in a JS-`Map`-style association list: the most recently set
binding for the key wins. -/
def alookup {β : Type} (m : List (String × β)) (k : String) : Option β :=
  m.foldl (fun acc kv => if kv.1 = k then some kv.2 else acc) none

/-- JS string falsiness: the empty string is falsy, all others truthy. -/
def jsFalsy (s : String) : Bool := s = ""

/-- JS `a || b` on strings: `b` when `a` is falsy. -/
def jsOr (a b : String) : String := if jsFalsy a then b else a

/-- User entity (src/lib/types.ts: User). -/
structure User where
  id : String
  email : String
  name : String
  createdAt : Int
  updatedAt : Int
deriving DecidableEq, Repr

/-- Contact entity (src/lib/types.ts: Contact). -/
structure Contact where
  id : String
  userId : String
  email : String
  name : String
  source : Source
  priority : Int
  createdAt : Int
  updatedAt : Int
deriving DecidableEq, Repr

/-- Conversation entity (src/lib/types.ts: Conversation). -/
structure Conversation where
  id : String
  externalId : String
  userId : String
  contactId : String
  source : Source
  title : String
  priority : Int
  lastMessageAt : Int
  createdAt : Int
  updatedAt : Int
deriving DecidableEq, Repr

/-- Message entity (src/lib/types.ts: Message). -/
structure Message where
  id : String
  externalId : String
  conversationId : String
  source : Source
  content : String
  metadata : Metadata
  createdAt : Int
  updatedAt : Int
deriving DecidableEq, Repr

/-- SSE event type tag (src/lib/types.ts: SSEEventType). -/
inductive SSEEventType where
  | conversationUpdated
  | conversationNew
  | messageNew
deriving DecidableEq, Repr

/-- SSE event payload (src/lib/types.ts: SSEEvent.data). -/
structure SSEEventData where
  conversationId : String
  userId : String
  priority : Option Int := none
  messageId : Option String := none
deriving DecidableEq, Repr

/-- SSE event (src/lib/types.ts: SSEEvent). -/
structure SSEEvent where
  type : SSEEventType
  data : SSEEventData
deriving DecidableEq, Repr

/-- The in-memory store state (src/lib/store.ts: class Store).  `eventLog`
records the events handed to `this.events.emit(...)`, in order; `nextId`
drives the deterministic model of `uuidv4()`. -/
structure Store where
  users : List (String × User) := []
  contacts : List (String × Contact) := []
  conversations : List (String × Conversation) := []
  messages : List (String × Message) := []
  messagesByExternalId : List (String × String) := []
  contactsByUserAndEmail : List (String × String) := []
  conversationsByUserAndExternalId : List (String × String) := []
  eventLog : List SSEEvent := []
  nextId : Nat := 0
deriving DecidableEq, Repr

/-- A store with no entities (the seeded demo data is not modelled; all
claims quantify over arbitrary store states or build explicit ones). -/
def emptyStore : Store := {}

/-- Deterministic model of `uuidv4()`: the n-th generated id. -/
def uuid (n : Nat) : String := "uuid-" ++ toString n

/-- Store.getUser. -/
def Store.getUser (s : Store) (id : String) : Option User :=
  alookup s.users id

/-- Store.createUser.  `data.id || uuidv4()` falls back to a generated id when
the given id is absent or falsy; the email is stored lower-cased. -/
def Store.createUser (s : Store) (now : Int) (id? : Option String)
    (email name : String) : User × Store :=
  let user : User :=
    { id := jsOr (id?.getD "") (uuid s.nextId)
      email := jsToLower email
      name := name
      createdAt := now
      updatedAt := now }
  (user, { s with users := s.users ++ [(user.id, user)], nextId := s.nextId + 1 })

/-- Store.getContact. -/
def Store.getContact (s : Store) (id : String) : Option Contact :=
  alookup s.contacts id

/-- Store.findContactByUserAndEmail: index key is `userId:email.toLowerCase()`. -/
def Store.findContactByUserAndEmail (s : Store) (userId email : String) : Option Contact :=
  (alookup s.contactsByUserAndEmail (userId ++ ":" ++ jsToLower email)).bind
    (fun cid => alookup s.contacts cid)

/-- Store.createContact: stores the lower-cased email and indexes the contact
under `userId:email`; priority defaults to 50. -/
def Store.createContact (s : Store) (now : Int) (userId email name : String)
    (source : Source) (priority? : Option Int) : Contact × Store :=
  let contact : Contact :=
    { id := uuid s.nextId
      userId := userId
      email := jsToLower email
      name := name
      source := source
      priority := priority?.getD 50
      createdAt := now
      updatedAt := now }
  (contact,
    { s with
      contacts := s.contacts ++ [(contact.id, contact)]
      contactsByUserAndEmail :=
        s.contactsByUserAndEmail ++ [(contact.userId ++ ":" ++ contact.email, contact.id)]
      nextId := s.nextId + 1 })

/-- Store.findOrCreateContact. -/
def Store.findOrCreateContact (s : Store) (now : Int) (userId email name : String)
    (source : Source) : Contact × Store :=
  match s.findContactByUserAndEmail userId email with
  | some existing => (existing, s)
  | none => s.createContact now userId email name source none

/-- String form of a source, as interpolated into JS template-literal keys. -/
def sourceKey : Source → String
  | .email => "email"
  | .slack => "slack"
  | .whatsapp => "whatsapp"
  | .linkedin => "linkedin"

/-- Store.getConversation. -/
def Store.getConversation (s : Store) (id : String) : Option Conversation :=
  alookup s.conversations id

/-- Store.findConversationByUserAndExternalId: index key is
`userId:source:externalId`. -/
def Store.findConversationByUserAndExternalId (s : Store) (userId externalId : String)
    (source : Source) : Option Conversation :=
  (alookup s.conversationsByUserAndExternalId
      (userId ++ ":" ++ sourceKey source ++ ":" ++ externalId)).bind
    (fun cid => alookup s.conversations cid)

/-- Store.createConversation: initial priority 50, `lastMessageAt = now`;
emits a `conversation:new` event. -/
def Store.createConversation (s : Store) (now : Int) (userId contactId externalId : String)
    (source : Source) (title : String) : Conversation × Store :=
  let conversation : Conversation :=
    { id := uuid s.nextId
      externalId := externalId
      userId := userId
      contactId := contactId
      source := source
      title := title
      priority := 50
      lastMessageAt := now
      createdAt := now
      updatedAt := now }
  (conversation,
    { s with
      conversations := s.conversations ++ [(conversation.id, conversation)]
      conversationsByUserAndExternalId :=
        s.conversationsByUserAndExternalId ++
          [(conversation.userId ++ ":" ++ sourceKey conversation.source ++ ":" ++
              conversation.externalId, conversation.id)]
      eventLog := s.eventLog ++
        [{ type := .conversationNew
           data := { conversationId := conversation.id
                     userId := conversation.userId
                     priority := some conversation.priority } }]
      nextId := s.nextId + 1 })

/-- Store.findOrCreateConversation. -/
def Store.findOrCreateConversation (s : Store) (now : Int)
    (userId contactId externalId : String) (source : Source) (title : String) :
    (Conversation × Bool) × Store :=
  match s.findConversationByUserAndExternalId userId externalId source with
  | some existing => ((existing, false), s)
  | none =>
    let r := s.createConversation now userId contactId externalId source title
    ((r.1, true), r.2)

/-- Store.updateConversationPriority: mutates priority, lastMessageAt and
updatedAt of the stored conversation and emits `conversation:updated`. -/
def Store.updateConversationPriority (s : Store) (now : Int) (conversationId : String)
    (priority : Int) (lastMessageAt : Int) : Option Conversation × Store :=
  match alookup s.conversations conversationId with
  | none => (none, s)
  | some conversation =>
    let updated : Conversation :=
      { conversation with priority := priority, lastMessageAt := lastMessageAt, updatedAt := now }
    (some updated,
      { s with
        conversations := s.conversations.map
          (fun kv => if kv.1 = conversationId then (kv.1, updated) else kv)
        eventLog := s.eventLog ++
          [{ type := .conversationUpdated
             data := { conversationId := updated.id
                       userId := updated.userId
                       priority := some updated.priority } }] })

/-- Store.getMessage. -/
def Store.getMessage (s : Store) (id : String) : Option Message :=
  alookup s.messages id

/-- Store.findMessageByExternalId: dedup lookup through the by-external-id index. -/
def Store.findMessageByExternalId (s : Store) (externalId : String) : Option Message :=
  (alookup s.messagesByExternalId externalId).bind (fun mid => alookup s.messages mid)

/-- Store.createMessage: unconditional insert into the message map and the
by-external-id index; emits `message:new` when the owning conversation exists. -/
def Store.createMessage (s : Store) (now : Int) (conversationId externalId : String)
    (source : Source) (content : String) (metadata : Metadata)
    (createdAt? : Option Int) : Message × Store :=
  let message : Message :=
    { id := uuid s.nextId
      externalId := externalId
      conversationId := conversationId
      source := source
      content := content
      metadata := metadata
      createdAt := createdAt?.getD now
      updatedAt := now }
  let s' :=
    { s with
      messages := s.messages ++ [(message.id, message)]
      messagesByExternalId := s.messagesByExternalId ++ [(message.externalId, message.id)]
      nextId := s.nextId + 1 }
  match alookup s.conversations conversationId with
  | some conversation =>
    (message,
      { s' with
        eventLog := s'.eventLog ++
          [{ type := .messageNew
             data := { conversationId := conversation.id
                       userId := conversation.userId
                       messageId := some message.id } }] })
  | none => (message, s')

/-!
Sorting and pagination (src/lib/store.ts: getConversationsForUser and friends).
JS `Array.prototype.sort` with a comparator is a stable sort; it is embedded
as a stable insertion sort driven by the sign of the comparator.  JS
`Array.prototype.slice` clamps its arguments per the ECMAScript rules,
including the from-the-end interpretation of negative indices.
-/

/-- Resolve a JS slice index against a list length (ECMAScript
`ArraySpeciesCreate`/slice clamping). -/
def jsSliceIndex (len : Nat) (i : Int) : Nat :=
  if i < 0 then ((len : Int) + i).toNat else min i.toNat len

/-- JS `arr.slice(start, stop)`. -/
def jsSlice {α : Type} (l : List α) (start stop : Int) : List α :=
  (l.take (jsSliceIndex l.length stop)).drop (jsSliceIndex l.length start)

/-- Stable insertion of an element into a list sorted by `le`: the element
goes before the first position whose inhabitant it `le`-precedes. -/
def insertLe {α : Type} (le : α → α → Bool) (x : α) : List α → List α
  | [] => [x]
  | y :: ys => if le x y then x :: y :: ys else y :: insertLe le x ys

/-- Stable insertion sort by `le` (earlier elements win ties), the embedding
of JS `Array.prototype.sort` with a comparator. -/
def sortLe {α : Type} (le : α → α → Bool) : List α → List α
  | [] => []
  | x :: xs => insertLe le x (sortLe le xs)

/-- The conversation-list comparator (src/lib/store.ts: getConversationsForUser):
`b.priority - a.priority` when priorities differ, else
`b.createdAt - a.createdAt` (priority DESC, then createdAt DESC). -/
def conversationCmp (a b : Conversation) : Int :=
  if b.priority ≠ a.priority then b.priority - a.priority
  else b.createdAt - a.createdAt

/-- Nonpositive-comparator test feeding the stable sort: `a` may precede `b`. -/
def conversationLe (a b : Conversation) : Bool := conversationCmp a b ≤ 0

/-- Options bag for Store.getConversationsForUser. -/
structure ConversationQueryOptions where
  page : Option Int := none
  limit : Option Int := none
  source : Option Source := none
deriving DecidableEq, Repr

/-- Store.getConversationsForUser: filter by user and optional source, sort by
(priority DESC, createdAt DESC), paginate.  `page` defaults to 1 (no further
clamping); `limit` defaults to 20 and is capped at 100. -/
def Store.getConversationsForUser (s : Store) (userId : String)
    (options : ConversationQueryOptions) : List Conversation × Nat :=
  let page := options.page.getD 1
  let limit := min (options.limit.getD 20) 100
  let conversations := (s.conversations.map (fun kv => kv.2)).filter
    (fun c => c.userId = userId)
  let conversations :=
    match options.source with
    | some source => conversations.filter (fun c => c.source = source)
    | none => conversations
  let sorted := sortLe conversationLe conversations
  let total := sorted.length
  let start := (page - 1) * limit
  let paginated := jsSlice sorted start (start + limit)
  (paginated, total)

/-- Store.getMessageCountForConversation. -/
def Store.getMessageCountForConversation (s : Store) (conversationId : String) : Nat :=
  ((s.messages.map (fun kv => kv.2)).filter
    (fun m => m.conversationId = conversationId)).length

/-!
Email ingestion route (src/app/api/messages/email/route.ts: POST).  `now` is
the clock reading used for every `new Date()` while handling the request.
Request fields that the JS handler reads through optional chaining or with a
`||` fallback are embedded as plain strings with the empty string standing for
an absent or empty value; `receivedAt` and `metadata` are `Option`s.
-/

/-- Email ingestion request body (src/lib/types.ts: EmailMessageRequest). -/
structure EmailRequest where
  userId : String
  externalMessageId : String
  externalConversationId : String
  fromEmail : String
  fromName : String
  subject : String := ""
  body : String := ""
  receivedAt : Option Int := none
  metadata : Option Metadata := none
deriving DecidableEq, Repr

/-- Outcome of the email ingestion route, tagged like the JSON responses. -/
inductive IngestionResult where
  | validationError
  | userNotFound
  | duplicateMessage
  | created (messageId conversationId contactId : String) (priority : Int)
deriving DecidableEq, Repr

/-- HTTP status code attached to each ingestion outcome. -/
def IngestionResult.status : IngestionResult → Nat
  | .validationError => 400
  | .userNotFound => 404
  | .duplicateMessage => 409
  | .created _ _ _ _ => 201

/-- POST /api/messages/email (src/app/api/messages/email/route.ts). -/
def emailPOST (s : Store) (now : Int) (req : EmailRequest) : IngestionResult × Store :=
  if jsFalsy req.userId || jsFalsy req.externalMessageId ||
      jsFalsy req.externalConversationId then
    (.validationError, s)
  else if jsFalsy req.fromEmail || jsFalsy req.fromName then
    (.validationError, s)
  else
    match s.getUser req.userId with
    | none => (.userNotFound, s)
    | some _user =>
      match s.findMessageByExternalId req.externalMessageId with
      | some _existingMessage =>
        -- the handler reads getConversation(existingMessage.conversationId)
        -- for the error message only; no state is touched
        (.duplicateMessage, s)
      | none =>
        let rContact := s.findOrCreateContact now req.userId req.fromEmail req.fromName .email
        let contact := rContact.1
        let s1 := rContact.2
        let rConv := s1.findOrCreateConversation now req.userId contact.id
          req.externalConversationId .email (jsOr req.subject "(No Subject)")
        let conversation := rConv.1.1
        let s2 := rConv.2
        let messageDate := req.receivedAt.getD now
        let rMsg := s2.createMessage now conversation.id req.externalMessageId .email
          req.body (req.metadata.getD Metadata.empty) (some messageDate)
        let message := rMsg.1
        let s3 := rMsg.2
        let priority := calculatePriority now
          { source := .email
            content := req.body
            lastMessageAt := messageDate
            contactPriority := contact.priority
            metadata := req.metadata.getD Metadata.empty }
        let s4 := (s3.updateConversationPriority now conversation.id priority messageDate).2
        (.created message.id conversation.id contact.id priority, s4)

/-!
Conversation listing route (src/app/api/conversations/route.ts: GET).
The route clamps `page` to at least 1 and `limit` to 1..100 before calling
the store, then maps each conversation through the read-time inactivity
check.
-/

/-- One row of the conversation-list response
(src/lib/types.ts: ConversationListItem). -/
structure ConversationListItem where
  id : String
  externalId : String
  source : Source
  title : String
  priority : Int
  lastMessageAt : Int
  contactId : String
  contactName : String
  contactEmail : String
  messageCount : Nat
  createdAt : Int
  updatedAt : Int
deriving DecidableEq, Repr

/-- Shape one conversation into a response row, applying the lazy inactivity
check to its priority (src/app/api/conversations/route.ts). -/
def toConversationListItem (s : Store) (now : Int) (conversation : Conversation) :
    ConversationListItem :=
  let contact := s.getContact conversation.contactId
  { id := conversation.id
    externalId := conversation.externalId
    source := conversation.source
    title := conversation.title
    priority := getPriorityWithInactivityCheck now conversation.priority
      conversation.lastMessageAt
    lastMessageAt := conversation.lastMessageAt
    contactId := (contact.map (fun c => c.id)).getD ""
    contactName := (contact.map (fun c => c.name)).getD "Unknown"
    contactEmail := (contact.map (fun c => c.email)).getD ""
    messageCount := s.getMessageCountForConversation conversation.id
    createdAt := conversation.createdAt
    updatedAt := conversation.updatedAt }

/-- Outcome of GET /api/conversations. -/
inductive ConversationsGETResult where
  | validationError
  | userNotFound
  | ok (data : List ConversationListItem) (total : Nat) (page limit : Int)
deriving DecidableEq, Repr

/-- GET /api/conversations (src/app/api/conversations/route.ts).  `pageParam`
and `limitParam` are the parsed integer query parameters (`none` when the
parameter is absent, in which case the fallback defaults of the route apply). -/
def conversationsGET (s : Store) (now : Int) (userId : Option String)
    (pageParam limitParam : Option Int) (source : Option Source) :
    ConversationsGETResult :=
  let page := max 1 (pageParam.getD 1)
  let limit := min 100 (max 1 (limitParam.getD 20))
  match userId with
  | none => .validationError
  | some uid =>
    if jsFalsy uid then .validationError
    else
      match s.getUser uid with
      | none => .userNotFound
      | some _user =>
        let r := s.getConversationsForUser uid
          { page := some page, limit := some limit, source := source }
        .ok (r.1.map (toConversationListItem s now)) r.2 page limit

/-!
Change notifier (src/lib/store.ts: class EventEmitter).  A listener is a
callback invoked for each emitted event; its run is modelled as a state
transformer on an observation state `σ` paired with a flag saying whether the
callback then throws.  `emit` wraps each invocation in try/catch, so a throw
is confined to that invocation and iteration continues; the state effects a
listener performed before throwing persist.  The listener set iterates in
insertion (subscription) order.
-/

/-- A subscribed listener: its state effect and whether it throws. -/
structure EmitterListener (σ : Type) where
  run : SSEEvent → σ → σ × Bool

/-- The notifier: listeners in subscription order
(src/lib/store.ts: EventEmitter.listeners, a JS Set iterated in insertion
order). -/
structure EventEmitter (σ : Type) where
  listeners : List (EmitterListener σ) := []

/-- EventEmitter.subscribe: adds the listener at the end of the iteration
order (the unsubscribe closure returned by the source simply removes the
listener again and is not needed by the claims). -/
def EventEmitter.subscribe {σ : Type} (em : EventEmitter σ) (l : EmitterListener σ) :
    EventEmitter σ :=
  { em with listeners := em.listeners ++ [l] }

/-- Deliver an event to each listener in order; each call is wrapped in
try/catch, so a throwing listener is caught (`console.error`) and the walk
continues with the state it left behind (src/lib/store.ts: EventEmitter.emit).
The second component records whether an exception escaped `emit` itself. -/
def emitWalk {σ : Type} : List (EmitterListener σ) → SSEEvent → σ → σ × Bool
  | [], _, s => (s, false)
  | l :: ls, event, s =>
    -- try { listener(event) } catch (error) { console.error(...) }
    let r := l.run event s
    emitWalk ls event r.1

/-- EventEmitter.emit. -/
def EventEmitter.emit {σ : Type} (em : EventEmitter σ) (event : SSEEvent) (s : σ) :
    σ × Bool :=
  emitWalk em.listeners event s

/-!
Helper lemmas.
-/

/-- Appending one binding: the new binding wins for its own key, everything
else is unchanged (JS `Map.set` semantics). -/
theorem alookup_append_single {β : Type} (m : List (String × β)) (k k' : String) (v : β) :
    alookup (m ++ [(k, v)]) k' = if k = k' then some v else alookup m k' :=
  by simp [alookup, List.foldl_append]

/-- Keeping only the matching entries commutes with the conditional max fold
used by the urgency scan. -/
theorem foldl_max_filter (p : String × Int → Bool) :
    ∀ (l : List (String × Int)) (acc : Int),
      l.foldl (fun best kv => if p kv then max best kv.2 else best) acc
        = (l.filter p).foldl (fun best kv => max best kv.2) acc := by
  intro l
  induction l with
  | nil => intro acc; rfl
  | cons kv rest ih =>
    intro acc
    by_cases hp : p kv = true
    · simp [List.filter_cons, hp, ih]
    · simp only [Bool.not_eq_true] at hp
      simp [List.filter_cons, hp, ih]

/-- The inactivity test over exact rationals reduces to an integer
millisecond comparison: 7 days is 604800000 ms. -/
theorem isInactive_iff (now lastMessageAt : Int) :
    isInactive now lastMessageAt = true ↔ 604800000 ≤ now - lastMessageAt := by
  simp only [isInactive, INACTIVITY_THRESHOLD_DAYS, ge_iff_le, decide_eq_true_eq]
  rw [le_div_iff₀ (by norm_num)]
  constructor
  · intro h
    have h' : (604800000 : ℚ) ≤ (now : ℚ) - (lastMessageAt : ℚ) := by linarith
    exact_mod_cast h'
  · intro h
    have h' : (604800000 : ℚ) ≤ (now : ℚ) - (lastMessageAt : ℚ) := by exact_mod_cast h
    linarith

/-- Membership in a stable insertion is membership in the inserted element or
the original list. -/
theorem mem_insertLe {α : Type} (le : α → α → Bool) (x a : α) :
    ∀ l : List α, a ∈ insertLe le x l ↔ a = x ∨ a ∈ l := by
  intro l
  induction l with
  | nil => simp [insertLe]
  | cons y ys ih =>
    by_cases h : le x y = true
    · simp [insertLe, h]
    · simp only [Bool.not_eq_true] at h
      simp [insertLe, h, ih]
      tauto

/-- Stable insertion preserves pairwise sortedness for a total transitive
boolean relation. -/
theorem pairwise_insertLe {α : Type} (le : α → α → Bool)
    (htot : ∀ a b, le a b = true ∨ le b a = true)
    (htrans : ∀ a b c, le a b = true → le b c = true → le a c = true)
    (x : α) :
    ∀ l : List α, l.Pairwise (fun a b => le a b = true) →
      (insertLe le x l).Pairwise (fun a b => le a b = true) := by
  intro l
  induction l with
  | nil => intro _; simp [insertLe]
  | cons y ys ih =>
    intro h
    rcases List.pairwise_cons.mp h with ⟨hy, hys⟩
    by_cases hxy : le x y = true
    · simp only [insertLe, hxy, if_true]
      refine List.pairwise_cons.mpr ⟨?_, h⟩
      intro b hb
      rcases List.mem_cons.mp hb with rfl | hb
      · exact hxy
      · exact htrans x y b hxy (hy b hb)
    · simp only [Bool.not_eq_true] at hxy
      have hyx : le y x = true := by
        rcases htot x y with h1 | h1
        · rw [h1] at hxy; cases hxy
        · exact h1
      simp only [insertLe, hxy]
      simp only [Bool.false_eq_true, if_false]
      refine List.pairwise_cons.mpr ⟨?_, ih hys⟩
      intro b hb
      rcases (mem_insertLe le x b ys).mp hb with rfl | hb
      · exact hyx
      · exact hy b hb

/-- The stable sort is pairwise sorted for a total transitive boolean
relation. -/
theorem pairwise_sortLe {α : Type} (le : α → α → Bool)
    (htot : ∀ a b, le a b = true ∨ le b a = true)
    (htrans : ∀ a b c, le a b = true → le b c = true → le a c = true) :
    ∀ l : List α, (sortLe le l).Pairwise (fun a b => le a b = true) := by
  intro l
  induction l with
  | nil => simp [sortLe]
  | cons x xs ih => exact pairwise_insertLe le htot htrans x (sortLe le xs) ih

/-- The stable sort neither adds nor removes elements (as a set). -/
theorem mem_sortLe {α : Type} (le : α → α → Bool) (a : α) :
    ∀ l : List α, a ∈ sortLe le l ↔ a ∈ l := by
  intro l
  induction l with
  | nil => simp [sortLe]
  | cons x xs ih =>
    simp only [sortLe, mem_insertLe le x a (sortLe le xs), ih, List.mem_cons]

/-- A JS slice is a sublist of the sliced list. -/
theorem jsSlice_sublist {α : Type} (l : List α) (start stop : Int) :
    (jsSlice l start stop).Sublist l :=
  ((l.take (jsSliceIndex l.length stop)).drop_sublist _).trans (l.take_sublist _)

/-- The conversation comparator is antisymmetric in sign, hence total. -/
theorem conversationLe_total (a b : Conversation) :
    conversationLe a b = true ∨ conversationLe b a = true := by
  simp only [conversationLe, conversationCmp, decide_eq_true_eq]
  by_cases h : a.priority = b.priority <;> simp [h] <;> omega

/-- The conversation comparator test is transitive. -/
theorem conversationLe_trans (a b c : Conversation) :
    conversationLe a b = true → conversationLe b c = true →
      conversationLe a c = true := by
  simp only [conversationLe, conversationCmp, decide_eq_true_eq]
  by_cases hab : a.priority = b.priority <;>
    by_cases hbc : b.priority = c.priority <;>
      by_cases hac : a.priority = c.priority <;>
        simp [hab, hbc, hac] <;> omega

/-!
Store invariant for message deduplication.
-/

/-- Dedup invariant on a store state: every stored message is reachable
through the by-external-id index, and no two stored messages share an
external id. -/
def storeInv (s : Store) : Prop :=
  (∀ kv ∈ s.messages, (s.findMessageByExternalId kv.2.externalId).isSome = true)
    ∧ s.messages.Pairwise (fun a b => a.2.externalId ≠ b.2.externalId)

/-- findOrCreateContact never touches the message map or its index. -/
theorem findOrCreateContact_messages (s : Store) (now : Int)
    (userId email name : String) (source : Source) :
    ((s.findOrCreateContact now userId email name source).2).messages = s.messages
      ∧ ((s.findOrCreateContact now userId email name source).2).messagesByExternalId
          = s.messagesByExternalId := by
  unfold Store.findOrCreateContact
  cases s.findContactByUserAndEmail userId email with
  | some existing => exact ⟨rfl, rfl⟩
  | none => exact ⟨rfl, rfl⟩

/-- findOrCreateConversation never touches the message map or its index. -/
theorem findOrCreateConversation_messages (s : Store) (now : Int)
    (userId contactId externalId : String) (source : Source) (title : String) :
    ((s.findOrCreateConversation now userId contactId externalId source title).2).messages
        = s.messages
      ∧ ((s.findOrCreateConversation now userId contactId externalId source
            title).2).messagesByExternalId = s.messagesByExternalId := by
  unfold Store.findOrCreateConversation
  cases s.findConversationByUserAndExternalId userId externalId source with
  | some existing => exact ⟨rfl, rfl⟩
  | none => exact ⟨rfl, rfl⟩

/-- updateConversationPriority never touches the message map or its index. -/
theorem updateConversationPriority_messages (s : Store) (now : Int)
    (conversationId : String) (priority : Int) (lastMessageAt : Int) :
    ((s.updateConversationPriority now conversationId priority lastMessageAt).2).messages
        = s.messages
      ∧ ((s.updateConversationPriority now conversationId priority
            lastMessageAt).2).messagesByExternalId = s.messagesByExternalId := by
  unfold Store.updateConversationPriority
  cases alookup s.conversations conversationId with
  | some conversation => exact ⟨rfl, rfl⟩
  | none => exact ⟨rfl, rfl⟩

/-- createMessage appends exactly one message and one index binding, carrying
the requested external id. -/
theorem createMessage_shape (s : Store) (now : Int) (conversationId externalId : String)
    (source : Source) (content : String) (metadata : Metadata) (createdAt? : Option Int) :
    ((s.createMessage now conversationId externalId source content metadata
          createdAt?).2).messages
        = s.messages ++
            [(((s.createMessage now conversationId externalId source content metadata
                  createdAt?).1).id,
              (s.createMessage now conversationId externalId source content metadata
                  createdAt?).1)]
      ∧ ((s.createMessage now conversationId externalId source content metadata
            createdAt?).2).messagesByExternalId
          = s.messagesByExternalId ++
              [(((s.createMessage now conversationId externalId source content metadata
                    createdAt?).1).externalId,
                ((s.createMessage now conversationId externalId source content metadata
                    createdAt?).1).id)]
      ∧ ((s.createMessage now conversationId externalId source content metadata
            createdAt?).1).externalId = externalId := by
  unfold Store.createMessage
  cases alookup s.conversations conversationId with
  | some conversation => exact ⟨rfl, rfl, rfl⟩
  | none => exact ⟨rfl, rfl, rfl⟩

/-- The dedup lookup only reads the message map and its index. -/
theorem findMessageByExternalId_congr (s s' : Store)
    (hm : s'.messages = s.messages)
    (hi : s'.messagesByExternalId = s.messagesByExternalId) (externalId : String) :
    s'.findMessageByExternalId externalId = s.findMessageByExternalId externalId := by
  simp [Store.findMessageByExternalId, hm, hi]

/-- Inserting a message under a fresh external id preserves the dedup
invariant. -/
theorem storeInv_insert (s s' : Store) (m : Message)
    (hm : s'.messages = s.messages ++ [(m.id, m)])
    (hi : s'.messagesByExternalId = s.messagesByExternalId ++ [(m.externalId, m.id)])
    (hfresh : s.findMessageByExternalId m.externalId = none)
    (hinv : storeInv s) : storeInv s' := by
  obtain ⟨hreach, hpair⟩ := hinv
  have hnotold : ∀ kv ∈ s.messages, kv.2.externalId ≠ m.externalId := by
    intro kv hkv heq
    have := hreach kv hkv
    rw [heq, hfresh] at this
    simp at this
  constructor
  · intro kv hkv
    rw [hm] at hkv
    rcases List.mem_append.mp hkv with hold | hnew
    · have hne : kv.2.externalId ≠ m.externalId := hnotold kv hold
      have hidx : alookup s'.messagesByExternalId kv.2.externalId
          = alookup s.messagesByExternalId kv.2.externalId := by
        rw [hi, alookup_append_single, if_neg (fun h => hne h.symm)]
      have hold2 := hreach kv hold
      simp only [Store.findMessageByExternalId, Option.isSome_iff_exists] at hold2 ⊢
      obtain ⟨msg, hmsg⟩ := hold2
      rcases Option.bind_eq_some.mp hmsg with ⟨mid, hmid, hmsg2⟩
      rcases Decidable.em (m.id = mid) with heq | hne2
      · refine ⟨m, ?_⟩
        rw [hidx, hmid, Option.some_bind, hm, alookup_append_single, if_pos heq]
      · refine ⟨msg, ?_⟩
        rw [hidx, hmid, Option.some_bind, hm, alookup_append_single, if_neg hne2, hmsg2]
    · have hkv' : kv = (m.id, m) := by simpa using hnew
      subst hkv'
      simp only [Store.findMessageByExternalId, hi, hm, alookup_append_single]
      simp
  · rw [hm]
    refine List.pairwise_append.mpr ⟨hpair, List.pairwise_singleton _ _, ?_⟩
    intro a ha b hb
    have hb' : b = (m.id, m) := by simpa using hb
    subst hb'
    exact hnotold a ha

/-!
Claim theorems.
-/

/-- C2: if now minus lastMessageAt is at least 7 days (604800000 ms), then
calculatePriority returns 0 regardless of all other signals, and
getPriorityWithInactivityCheck returns 0; otherwise the read-time check
returns the stored priority unchanged. -/
theorem c2_inactivity_threshold (now : Int) (context : PriorityContext)
    (storedPriority : Int) :
    (604800000 ≤ now - context.lastMessageAt → calculatePriority now context = 0)
    ∧ (604800000 ≤ now - context.lastMessageAt →
        getPriorityWithInactivityCheck now storedPriority context.lastMessageAt = 0)
    ∧ (now - context.lastMessageAt < 604800000 →
        getPriorityWithInactivityCheck now storedPriority context.lastMessageAt
          = storedPriority) := by
  refine ⟨?_, ?_, ?_⟩
  · intro h
    unfold calculatePriority
    rw [if_pos ((isInactive_iff _ _).mpr h)]
  · intro h
    unfold getPriorityWithInactivityCheck
    rw [if_pos ((isInactive_iff _ _).mpr h)]
  · intro h
    unfold getPriorityWithInactivityCheck
    have hfalse : isInactive now context.lastMessageAt ≠ true := by
      intro hbad
      have h2 := (isInactive_iff now context.lastMessageAt).mp hbad
      omega
    rw [if_neg hfalse]

/-- Witness for C2 at concrete clock readings: exactly 7 days of silence zeroes
both the calculator and the read-time check, one millisecond less leaves the
stored priority alone. -/
theorem c2_witness :
    calculatePriority 604800000
        { source := .email, content := "urgent deadline", lastMessageAt := 0,
          contactPriority := 90, metadata := { importance := some "high" } } = 0
    ∧ getPriorityWithInactivityCheck 604800000 77 0 = 0
    ∧ getPriorityWithInactivityCheck 604800000 77 1 = 77 :=
  ⟨(c2_inactivity_threshold 604800000
      { source := .email, content := "urgent deadline", lastMessageAt := 0,
        contactPriority := 90, metadata := { importance := some "high" } } 77).1
      (by decide),
   (c2_inactivity_threshold 604800000
      { source := .email, content := "", lastMessageAt := 0,
        contactPriority := 0, metadata := {} } 77).2.1 (by decide),
   (c2_inactivity_threshold 604800000
      { source := .email, content := "", lastMessageAt := 1,
        contactPriority := 0, metadata := {} } 77).2.2 (by decide)⟩

/-- C3: calculatePriority always returns an integer in the interval 0..100
(for every context, hence in particular for every contactPriority in 0..100). -/
theorem c3_priority_bounds (now : Int) (context : PriorityContext) :
    0 ≤ calculatePriority now context ∧ calculatePriority now context ≤ 100 := by
  unfold calculatePriority
  by_cases h : isInactive now context.lastMessageAt = true
  · rw [if_pos h]
    exact ⟨le_refl 0, by norm_num⟩
  · rw [if_neg h]
    exact ⟨le_max_left 0 _, max_le (by norm_num) (min_le_left _ _)⟩

/-- C4: the urgency signal is the maximum score over the keywords of the fixed
table occurring case-insensitively in the content, clamped to 20; multiple
matches take the maximum rather than summing, and keyword-free content scores
0.  The concrete conjuncts exercise multiple matches (20 and 18, not sums)
and the no-keyword case. -/
theorem c4_urgency_keywords :
    (∀ content : String,
      calculateUrgencyScore content =
        min ((URGENCY_KEYWORDS.filter
              (fun kv => strIncludes (jsToLower content) kv.1)).foldl
            (fun best kv => max best kv.2) 0) 20)
    ∧ calculateUrgencyScore "this is URGENT, asap even, critical" = 20
    ∧ calculateUrgencyScore "critical deadline" = 18
    ∧ calculateUrgencyScore "hello there friend" = 0 := by
  refine ⟨?_, by decide, by decide, by decide⟩
  intro content
  simp only [calculateUrgencyScore]
  rw [foldl_max_filter]

/-- C5 counterexample: a slack metadata bag with isDirectMessage false and an
empty (but present) mentions array gets boost 0, not the -5 the claim
requires for "no mention present (including an empty mentions list)". -/
theorem c5_counterexample :
    calculateProviderBoost Source.slack
        { Metadata.empty with isDirectMessage := false, mentions := some [] } = 0
    ∧ (0 : Int) ≠ -5 :=
  ⟨by decide, by decide⟩

/-- C5 amended: the slack boost is the clamped sum of +10 for a direct
message and +5 for a nonempty mentions array, but the -5 channel-noise
penalty fires only when the message is not direct and the mentions key is
absent; a present-but-empty mentions array is truthy in JS and suppresses the
penalty, giving 0.  A direct message with a mention sums to 15 before the
single final clamp to 10. -/
theorem c5_slack_boost_amended (md : Metadata) (x : String) (l : List String) :
    calculateProviderBoost Source.slack
        { md with isDirectMessage := false, mentions := none } = -5
    ∧ calculateProviderBoost Source.slack
        { md with isDirectMessage := false, mentions := some [] } = 0
    ∧ calculateProviderBoost Source.slack
        { md with isDirectMessage := false, mentions := some (x :: l) } = 5
    ∧ calculateProviderBoost Source.slack
        { md with isDirectMessage := true, mentions := none } = 10
    ∧ calculateProviderBoost Source.slack
        { md with isDirectMessage := true, mentions := some [] } = 10
    ∧ calculateProviderBoost Source.slack
        { md with isDirectMessage := true, mentions := some (x :: l) } = 10 := by
  refine ⟨?_, ?_, ?_, ?_, ?_, ?_⟩ <;> simp [calculateProviderBoost]

/-- C8 counterexample: createUser stores the lower-cased email, not the email
as provided by the caller. -/
theorem c8_counterexample :
    ((emptyStore.createUser 0 none "Alice@Example.COM" "Alice").1).email
        ≠ "Alice@Example.COM"
    ∧ ((emptyStore.createUser 0 none "Alice@Example.COM" "Alice").1).email
        = "alice@example.com" :=
  ⟨by decide, by decide⟩

/-- C8 amended: createUser stores the lower-cased email (the name is stored
as provided). -/
theorem c8_createUser_email (s : Store) (now : Int) (id? : Option String)
    (email name : String) :
    ((s.createUser now id? email name).1).email = jsToLower email
    ∧ ((s.createUser now id? email name).1).name = name :=
  ⟨rfl, rfl⟩

/-- Walking the listener list with per-listener try/catch applies every
listener state effect in order and never lets an exception escape. -/
theorem emitWalk_foldl {σ : Type} (event : SSEEvent) :
    ∀ (ls : List (EmitterListener σ)) (st : σ),
      emitWalk ls event st
        = (ls.foldl (fun acc l => (l.run event acc).1) st, false) := by
  intro ls
  induction ls with
  | nil => intro st; rfl
  | cons l rest ih => intro st; simp [emitWalk, List.foldl_cons, ih]

/-- A listener over a shared log that records its tag and may then throw. -/
def listenerTag (i : Nat) (throws : Bool) : EmitterListener (List Nat) :=
  ⟨fun _ log => (log ++ [i], throws)⟩

/-- C9: emit delivers the event to every currently-subscribed listener in
subscription order (subscribe appends to the iteration order), a throwing
listener neither stops delivery to the remaining listeners nor lets the
error escape to the emitter, witnessed concretely by a throwing middle
listener whose neighbours still observe the event. -/
theorem c9_emit_isolation :
    (∀ (σ : Type) (em : EventEmitter σ) (event : SSEEvent) (st : σ),
        em.emit event st
          = (em.listeners.foldl (fun acc l => (l.run event acc).1) st, false))
    ∧ (∀ (σ : Type) (em : EventEmitter σ) (l : EmitterListener σ),
        (em.subscribe l).listeners = em.listeners ++ [l])
    ∧ EventEmitter.emit
        ⟨[listenerTag 1 false, listenerTag 2 true, listenerTag 3 false]⟩
        { type := .messageNew, data := { conversationId := "", userId := "" } } []
        = ([1, 2, 3], false) :=
  ⟨fun _σ em event st => emitWalk_foldl event em.listeners st,
   fun _σ _em _l => rfl,
   rfl⟩

/-- Lookup by contact key only depends on the case-normalized email. -/
theorem findContactByUserAndEmail_congr (s : Store) (userId e1 e2 : String)
    (h : jsToLower e1 = jsToLower e2) :
    s.findContactByUserAndEmail userId e1 = s.findContactByUserAndEmail userId e2 := by
  simp [Store.findContactByUserAndEmail, h]

/-- After createContact, lookup under any email with the same case-normalized
form returns the freshly created contact. -/
theorem findContact_after_create (s : Store) (now : Int) (userId e1 e2 name : String)
    (source : Source) (h : jsToLower e1 = jsToLower e2) :
    ((s.createContact now userId e1 name source none).2).findContactByUserAndEmail
        userId e2
      = some (s.createContact now userId e1 name source none).1 := by
  unfold Store.createContact Store.findContactByUserAndEmail
  simp only [alookup_append_single, ← h]
  simp

/-- C6: findOrCreateContact is idempotent on the (userId, case-normalized
email) key: a second call with the same key, whatever its name, source or
email casing, returns the contact of the first call and leaves the store
untouched; a hit returns the existing contact with no mutation at all, and a
miss creates the contact with default priority 50. -/
theorem c6_findOrCreateContact_idempotent (s : Store) (now1 now2 : Int)
    (userId e1 e2 n1 n2 : String) (src1 src2 : Source)
    (h : jsToLower e1 = jsToLower e2) :
    (((s.findOrCreateContact now1 userId e1 n1 src1).2).findOrCreateContact
          now2 userId e2 n2 src2).1
        = (s.findOrCreateContact now1 userId e1 n1 src1).1
    ∧ (((s.findOrCreateContact now1 userId e1 n1 src1).2).findOrCreateContact
          now2 userId e2 n2 src2).2
        = (s.findOrCreateContact now1 userId e1 n1 src1).2
    ∧ (∀ c, s.findContactByUserAndEmail userId e1 = some c →
        s.findOrCreateContact now1 userId e1 n1 src1 = (c, s))
    ∧ (s.findContactByUserAndEmail userId e1 = none →
        ((s.findOrCreateContact now1 userId e1 n1 src1).1).priority = 50) := by
  cases hfind : s.findContactByUserAndEmail userId e1 with
  | some c =>
    have hfind2 : s.findContactByUserAndEmail userId e2 = some c := by
      rw [← findContactByUserAndEmail_congr s userId e1 e2 h, hfind]
    refine ⟨?_, ?_, ?_, ?_⟩
    · simp [Store.findOrCreateContact, hfind, hfind2]
    · simp [Store.findOrCreateContact, hfind, hfind2]
    · intro c' hc'
      cases hc'
      simp [Store.findOrCreateContact, hfind]
    · intro hnone
      simp at hnone
  | none =>
    have hcreated :
        ((s.createContact now1 userId e1 n1 src1 none).2).findContactByUserAndEmail
            userId e2
          = some (s.createContact now1 userId e1 n1 src1 none).1 :=
      findContact_after_create s now1 userId e1 e2 n1 src1 h
    refine ⟨?_, ?_, ?_, ?_⟩
    · simp [Store.findOrCreateContact, hfind, hcreated]
    · simp [Store.findOrCreateContact, hfind, hcreated]
    · intro c' hc'
      simp at hc'
    · intro _
      simp [Store.findOrCreateContact, hfind, Store.createContact]

/-- Witness for C6: the same contact key reached through two channels with
different casing resolves to one contact created with default priority 50,
and the second call does not change the store. -/
theorem c6_witness :
    (((emptyStore.findOrCreateContact 0 "u1" "Bob@X.com" "Bob" .email).2).findOrCreateContact
          5 "u1" "bob@x.COM" "Bobby" .slack).2
        = (emptyStore.findOrCreateContact 0 "u1" "Bob@X.com" "Bob" .email).2
    ∧ ((emptyStore.findOrCreateContact 0 "u1" "Bob@X.com" "Bob" .email).1).priority = 50 :=
  ⟨(c6_findOrCreateContact_idempotent emptyStore 0 5 "u1" "Bob@X.com" "bob@x.COM"
      "Bob" "Bobby" .email .slack (by decide)).2.1,
   (c6_findOrCreateContact_idempotent emptyStore 0 5 "u1" "Bob@X.com" "bob@x.COM"
      "Bob" "Bobby" .email .slack (by decide)).2.2.2 (by decide)⟩

/-- The comparator admits `a` before `b` exactly when `a` has strictly higher
priority, or equal priority and a later-or-equal creation time. -/
theorem conversationLe_iff (a b : Conversation) :
    conversationLe a b = true ↔
      (b.priority < a.priority
        ∨ (a.priority = b.priority ∧ b.createdAt ≤ a.createdAt)) := by
  simp only [conversationLe, conversationCmp, decide_eq_true_eq]
  split_ifs with hne
  · constructor
    · intro h2
      left
      omega
    · rintro (h2 | ⟨heq, _⟩)
      · omega
      · exact absurd heq.symm hne
  · have heq : b.priority = a.priority := not_not.mp hne
    constructor
    · intro h2
      right
      exact ⟨heq.symm, by omega⟩
    · rintro (h2 | ⟨_, h3⟩)
      · omega
      · omega

/-- The user- and source-filtered conversation list feeding the sort in
getConversationsForUser. -/
def filteredConvs (s : Store) (userId : String) (src : Option Source) :
    List Conversation :=
  match src with
  | some source =>
    ((s.conversations.map (fun kv => kv.2)).filter
      (fun c => c.userId = userId)).filter (fun c => c.source = source)
  | none =>
    (s.conversations.map (fun kv => kv.2)).filter (fun c => c.userId = userId)

/-- Every returned page is a sublist of the sorted filtered list. -/
theorem getConversationsForUser_sublist (s : Store) (userId : String)
    (options : ConversationQueryOptions) :
    ((s.getConversationsForUser userId options).1).Sublist
      (sortLe conversationLe (filteredConvs s userId options.source)) := by
  unfold Store.getConversationsForUser filteredConvs
  cases options.source
  · exact jsSlice_sublist _ _ _
  · exact jsSlice_sublist _ _ _

/-- A single conversation used to probe pagination edge cases. -/
def convC7 : Conversation :=
  { id := "c1", externalId := "x1", userId := "u1", contactId := "ct1",
    source := .email, title := "t", priority := 50, lastMessageAt := 0,
    createdAt := 0, updatedAt := 0 }

/-- Store holding exactly one conversation for user u1. -/
def storeC7 : Store := { emptyStore with conversations := [("c1", convC7)] }

/-- C7 counterexample: getConversationsForUser does not clamp page to a
minimum of 1: page 0 returns the empty list while page 1 returns the
conversation of the user, so page 0 is not treated as page 1. -/
theorem c7_counterexample :
    (storeC7.getConversationsForUser "u1" { page := some 0 }).1 = []
    ∧ (storeC7.getConversationsForUser "u1" { page := some 1 }).1 = [convC7] :=
  ⟨by decide, by decide⟩

/-- C7 amended: getConversationsForUser returns the (optionally
source-filtered) conversations of the user sorted by priority descending with ties broken
by createdAt descending; limit is clamped to a hard maximum of 100 and
defaults to 20; page is NOT clamped by the store: it only defaults to 1 when
absent, and page 0 yields an empty list (the HTTP route, not the store, clamps
page to a minimum of 1 before calling). -/
theorem c7_listing_order_amended :
    (∀ (s : Store) (userId : String) (options : ConversationQueryOptions),
        ((s.getConversationsForUser userId options).1).Pairwise
          (fun a b => b.priority < a.priority
            ∨ (a.priority = b.priority ∧ b.createdAt ≤ a.createdAt)))
    ∧ (∀ (s : Store) (userId : String) (options : ConversationQueryOptions),
        ∀ c ∈ (s.getConversationsForUser userId options).1,
          c.userId = userId ∧ ∀ src, options.source = some src → c.source = src)
    ∧ (∀ (s : Store) (userId : String) (page : Option Int) (src : Option Source)
          (bigLimit : Int), 100 ≤ bigLimit →
        s.getConversationsForUser userId
            { page := page, limit := some bigLimit, source := src }
          = s.getConversationsForUser userId
              { page := page, limit := some 100, source := src })
    ∧ (∀ (s : Store) (userId : String) (lim : Option Int) (src : Option Source),
        s.getConversationsForUser userId { page := none, limit := lim, source := src }
          = s.getConversationsForUser userId
              { page := some 1, limit := lim, source := src })
    ∧ (∀ (s : Store) (userId : String) (lim : Option Int) (src : Option Source),
        (s.getConversationsForUser userId
            { page := some 0, limit := lim, source := src }).1 = []) := by
  refine ⟨?_, ?_, ?_, ?_, ?_⟩
  · intro s userId options
    have hsorted := pairwise_sortLe conversationLe conversationLe_total
      conversationLe_trans (filteredConvs s userId options.source)
    have hsub := getConversationsForUser_sublist s userId options
    exact ((hsorted.sublist hsub).imp (fun hab => (conversationLe_iff _ _).mp hab))
  · intro s userId options c hc
    have hsub := getConversationsForUser_sublist s userId options
    have hmem : c ∈ filteredConvs s userId options.source :=
      (mem_sortLe conversationLe c _).mp (hsub.subset hc)
    cases hsrc : options.source with
    | none =>
      rw [hsrc] at hmem
      unfold filteredConvs at hmem
      refine ⟨of_decide_eq_true (List.mem_filter.mp hmem).2, ?_⟩
      intro src hsome
      cases hsome
    | some src0 =>
      rw [hsrc] at hmem
      unfold filteredConvs at hmem
      have h1 := List.mem_filter.mp hmem
      have h2 := List.mem_filter.mp h1.1
      refine ⟨of_decide_eq_true h2.2, ?_⟩
      intro src hsome
      cases hsome
      exact of_decide_eq_true h1.2
  · intro s userId page src bigLimit hbig
    unfold Store.getConversationsForUser
    simp only [Option.getD_some, min_eq_right hbig, min_self]
  · intro s userId lim src
    rfl
  · intro s userId lim src
    unfold Store.getConversationsForUser
    have hstop : (((0:Int) - 1) * min (lim.getD 20) 100 + min (lim.getD 20) 100) = 0 := by
      ring
    simp only [Option.getD_some, hstop]
    simp [jsSlice, jsSliceIndex]

/-- Witness for C7: a limit of 1000 behaves exactly like the 100 cap, and the
single returned conversation indeed belongs to the queried user. -/
theorem c7_witness :
    (storeC7.getConversationsForUser "u1"
        { page := some 1, limit := some 1000, source := none }
      = storeC7.getConversationsForUser "u1"
          { page := some 1, limit := some 100, source := none })
    ∧ convC7.userId = "u1" :=
  ⟨c7_listing_order_amended.2.2.1 storeC7 "u1" (some 1) none 1000 (by decide),
   (c7_listing_order_amended.2.1 storeC7 "u1" { page := some 1 } convC7
      (by decide)).1⟩

/-- Conversation with a high stored priority whose last message is 7 days old
at the probe instant (inactive). -/
def convC10a : Conversation :=
  { id := "a", externalId := "xa", userId := "u1", contactId := "ct",
    source := .email, title := "stale high", priority := 90, lastMessageAt := 0,
    createdAt := 0, updatedAt := 0 }

/-- Conversation with a lower stored priority whose last message is at the
probe instant (active). -/
def convC10b : Conversation :=
  { id := "b", externalId := "xb", userId := "u1", contactId := "ct",
    source := .email, title := "fresh low", priority := 50,
    lastMessageAt := 604800000, createdAt := 0, updatedAt := 0 }

/-- Owner of the two probe conversations. -/
def userC10 : User :=
  { id := "u1", email := "u@x.com", name := "U", createdAt := 0, updatedAt := 0 }

/-- Store with one user and the two probe conversations. -/
def storeC10 : Store :=
  { emptyStore with
    users := [("u1", userC10)]
    conversations := [("a", convC10a), ("b", convC10b)] }

/-- C10: the listing route sorts and paginates by the stored priority before
the read-time inactivity check is applied per returned item: at clock
604800000 the 7-day-stale conversation with stored priority 90 is returned
first with reported priority 0, ahead of the active conversation with stored
priority 50 reported as 50 — so the reported priorities [0, 50] are not in
descending order. -/
theorem c10_listing_uses_stored_priority :
    (match conversationsGET storeC10 604800000 (some "u1") none none none with
      | .ok data _ _ _ => some (data.map (fun item => (item.id, item.priority)))
      | _ => none)
      = some [("a", (0 : Int)), ("b", (50 : Int))]
    ∧ ¬ ([(0 : Int), 50].Pairwise (fun x y => y ≤ x)) := by
  constructor
  · have hf : jsFalsy "u1" = false := by decide
    have hu : storeC10.getUser "u1" = some userC10 := by decide
    have hnum1 : max (1 : Int) ((none : Option Int).getD 1) = 1 := by norm_num
    have hnum2 : min (100 : Int) (max 1 ((none : Option Int).getD 20)) = 20 := by
      norm_num
    have hr : storeC10.getConversationsForUser "u1"
        { page := some 1, limit := some 20, source := none }
        = ([convC10a, convC10b], 2) := by decide
    have hIa : getPriorityWithInactivityCheck 604800000 90 0 = 0 := by
      unfold getPriorityWithInactivityCheck
      rw [if_pos ((isInactive_iff 604800000 0).mpr (by decide))]
    have hIb : getPriorityWithInactivityCheck 604800000 50 604800000 = 50 := by
      unfold getPriorityWithInactivityCheck
      have hne : isInactive 604800000 604800000 ≠ true := by
        intro hbad
        have h2 := (isInactive_iff 604800000 604800000).mp hbad
        omega
      rw [if_neg hne]
    simp only [conversationsGET, hnum1, hnum2, hf, hu, hr, Bool.false_eq_true,
      if_false, List.map_cons, List.map_nil, toConversationListItem]
    simp only [convC10a, convC10b, hIa, hIb]
  · decide

/-- The two field guards of the email route as one test: all identifying and
sender fields present (JS-truthy). -/
def emailRequestComplete (req : EmailRequest) : Bool :=
  !(jsFalsy req.userId || jsFalsy req.externalMessageId
      || jsFalsy req.externalConversationId)
    && !(jsFalsy req.fromEmail || jsFalsy req.fromName)

/-- States agreeing on the message map and its index satisfy the dedup
invariant together. -/
theorem storeInv_congr (s s' : Store) (hm : s'.messages = s.messages)
    (hi : s'.messagesByExternalId = s.messagesByExternalId) :
    storeInv s ↔ storeInv s' := by
  unfold storeInv
  rw [hm]
  constructor <;> rintro ⟨h1, h2⟩ <;> refine ⟨?_, h2⟩ <;> intro kv hkv
  · rw [findMessageByExternalId_congr s s' hm hi]
    exact h1 kv hkv
  · rw [← findMessageByExternalId_congr s s' hm hi]
    exact h1 kv hkv

/-- The empty store satisfies the dedup invariant. -/
theorem storeInv_empty : storeInv emptyStore :=
  ⟨fun kv h => absurd h (List.not_mem_nil kv), List.Pairwise.nil⟩

/-- Pairwise-distinct external ids make the stored message unique per
external id. -/
theorem pairwise_extId_unique {l : List (String × Message)}
    (h : l.Pairwise (fun a b => a.2.externalId ≠ b.2.externalId)) :
    ∀ kv1 ∈ l, ∀ kv2 ∈ l, kv1.2.externalId = kv2.2.externalId → kv1.2 = kv2.2 := by
  induction h with
  | nil => intro kv1 h1; cases h1
  | cons hx _hrest ih =>
    intro kv1 h1 kv2 h2 heq
    rcases List.mem_cons.mp h1 with he1 | h1'
    · rcases List.mem_cons.mp h2 with he2 | h2'
      · rw [he1, he2]
      · rw [he1] at heq
        exact absurd heq (hx kv2 h2')
    · rcases List.mem_cons.mp h2 with he2 | h2'
      · rw [he2] at heq
        exact absurd heq.symm (hx kv1 h1')
      · exact ih kv1 h1' kv2 h2' heq

/-- Creating a message under a fresh external id and then updating the
conversation priority preserves the dedup invariant. -/
theorem createMessage_update_preserves (s2 : Store) (now : Int)
    (conversationId externalId content : String) (metadata : Metadata)
    (createdAt? : Option Int) (priority lastAt : Int)
    (hinv : storeInv s2)
    (hfresh : s2.findMessageByExternalId externalId = none) :
    storeInv ((((s2.createMessage now conversationId externalId .email content
        metadata createdAt?).2).updateConversationPriority now conversationId
        priority lastAt).2) := by
  have hshape := createMessage_shape s2 now conversationId externalId .email
    content metadata createdAt?
  have hinv3 : storeInv (s2.createMessage now conversationId externalId .email
      content metadata createdAt?).2 := by
    refine storeInv_insert s2 _ _ hshape.1 hshape.2.1 ?_ hinv
    rw [hshape.2.2]
    exact hfresh
  have hupd := updateConversationPriority_messages
    (s2.createMessage now conversationId externalId .email content metadata
      createdAt?).2 now conversationId priority lastAt
  exact (storeInv_congr _ _ hupd.1 hupd.2).mp hinv3

/-- Every email ingestion call preserves the dedup invariant. -/
theorem emailPOST_preserves_storeInv (s : Store) (now : Int) (req : EmailRequest)
    (hinv : storeInv s) : storeInv (emailPOST s now req).2 := by
  unfold emailPOST
  split
  · exact hinv
  split
  · exact hinv
  split
  · exact hinv
  split
  · exact hinv
  next hfresh =>
    dsimp only
    have h1 := findOrCreateContact_messages s now req.userId req.fromEmail
      req.fromName Source.email
    have hinv1 : storeInv (s.findOrCreateContact now req.userId req.fromEmail
        req.fromName Source.email).2 :=
      (storeInv_congr s _ h1.1 h1.2).mp hinv
    have hfresh1 : ((s.findOrCreateContact now req.userId req.fromEmail
        req.fromName Source.email).2).findMessageByExternalId
          req.externalMessageId = none := by
      rw [findMessageByExternalId_congr s _ h1.1 h1.2]
      exact hfresh
    generalize hs1 : (s.findOrCreateContact now req.userId req.fromEmail
      req.fromName Source.email).2 = s1 at hinv1 hfresh1 ⊢
    have h2 := findOrCreateConversation_messages s1 now req.userId
      ((s.findOrCreateContact now req.userId req.fromEmail req.fromName
        Source.email).1).id req.externalConversationId Source.email
      (jsOr req.subject "(No Subject)")
    have hinv2 := (storeInv_congr _ _ h2.1 h2.2).mp hinv1
    have hfresh2 : ((s1.findOrCreateConversation now req.userId
        ((s.findOrCreateContact now req.userId req.fromEmail req.fromName
          Source.email).1).id req.externalConversationId Source.email
        (jsOr req.subject "(No Subject)")).2).findMessageByExternalId
          req.externalMessageId = none := by
      rw [findMessageByExternalId_congr _ _ h2.1 h2.2]
      exact hfresh1
    exact createMessage_update_preserves _ now _ req.externalMessageId req.body
      (req.metadata.getD Metadata.empty) (some (req.receivedAt.getD now)) _ _
      hinv2 hfresh2

/-- C1: for a well-formed request for an existing user whose
externalMessageId is already stored, the email ingestion pipeline returns
DUPLICATE_MESSAGE (HTTP 409) and returns the store completely unchanged (no
contact, conversation, message, priority, lastMessageAt or event mutation);
every call preserves the dedup invariant, under which there is at most one
stored message per external id; and any sequence of submissions starting from
the empty store maintains that invariant. -/
theorem c1_ingestion_idempotency :
    (∀ (s : Store) (now : Int) (req : EmailRequest) (m : Message),
        emailRequestComplete req = true →
        (s.getUser req.userId).isSome = true →
        s.findMessageByExternalId req.externalMessageId = some m →
        emailPOST s now req = (.duplicateMessage, s)
          ∧ IngestionResult.duplicateMessage.status = 409)
    ∧ (∀ (s : Store) (now : Int) (req : EmailRequest),
        storeInv s → storeInv (emailPOST s now req).2)
    ∧ (∀ s : Store, storeInv s →
        ∀ kv1 ∈ s.messages, ∀ kv2 ∈ s.messages,
          kv1.2.externalId = kv2.2.externalId → kv1.2 = kv2.2)
    ∧ (∀ submissions : List (Int × EmailRequest),
        storeInv (submissions.foldl
          (fun acc tr => (emailPOST acc tr.1 tr.2).2) emptyStore)) := by
  refine ⟨?_, fun s now req => emailPOST_preserves_storeInv s now req,
    fun s hinv => pairwise_extId_unique hinv.2, ?_⟩
  · intro s now req m hcomplete huser hdup
    obtain ⟨u, hu⟩ := Option.isSome_iff_exists.mp huser
    simp only [emailRequestComplete, Bool.and_eq_true, Bool.not_eq_true',
      Bool.or_eq_false_iff] at hcomplete
    obtain ⟨⟨⟨hv1, hv2⟩, hv3⟩, hv4, hv5⟩ := hcomplete
    refine ⟨?_, rfl⟩
    simp [emailPOST, hv1, hv2, hv3, hv4, hv5, hu, hdup]
  · have hstep : ∀ (submissions : List (Int × EmailRequest)) (acc : Store),
        storeInv acc →
        storeInv (submissions.foldl
          (fun acc tr => (emailPOST acc tr.1 tr.2).2) acc) := by
      intro submissions
      induction submissions with
      | nil => intro acc hacc; exact hacc
      | cons tr rest ih =>
        intro acc hacc
        exact ih _ (emailPOST_preserves_storeInv acc tr.1 tr.2 hacc)
    intro submissions
    exact hstep submissions emptyStore storeInv_empty

/-- Message already stored when the duplicate submission arrives. -/
def msgC1 : Message :=
  { id := "m1", externalId := "ext-1", conversationId := "c1", source := .email,
    content := "hello", metadata := {}, createdAt := 0, updatedAt := 0 }

/-- Owner of the duplicate submission. -/
def userC1 : User :=
  { id := "u1", email := "u@x.com", name := "U", createdAt := 0, updatedAt := 0 }

/-- Store already holding msgC1 under external id ext-1. -/
def storeC1 : Store :=
  { emptyStore with
    users := [("u1", userC1)]
    messages := [("m1", msgC1)]
    messagesByExternalId := [("ext-1", "m1")] }

/-- A valid email request re-submitting external id ext-1. -/
def reqC1 : EmailRequest :=
  { userId := "u1", externalMessageId := "ext-1",
    externalConversationId := "conv-9", fromEmail := "a@b.co", fromName := "A" }

/-- Witness for C1: the concrete duplicate submission is rejected with the
store unchanged, and the resulting store still satisfies the dedup
invariant. -/
theorem c1_witness :
    emailPOST storeC1 0 reqC1 = (.duplicateMessage, storeC1)
    ∧ storeInv (emailPOST storeC1 0 reqC1).2 :=
  ⟨(c1_ingestion_idempotency.1 storeC1 0 reqC1 msgC1 (by decide) (by decide)
      (by decide)).1,
   c1_ingestion_idempotency.2.1 storeC1 0 reqC1 ⟨by decide, by decide⟩⟩
